import Mathlib

/-!
Shallow embedding of `src/viewregistry.js` (class `ViewRegistry2`, published
as `NGNX.ViewRegistry2`): the state machine, the parent/child reaction
propagation, the property-change translation and the construction-time
validation of an NGNX view registry.

Conventions of the embedding:
* JS objects used as string-keyed maps (`cfg.states`, `cfg.reactions`,
  `cfg.references`, ...) are association lists `List (String × α)`;
  bracket access and `hasOwnProperty` are `jsGet` / `jsHasOwnProperty`
  (first-key semantics, which agrees with JS objects whose keys are unique).
* JS `null` / `undefined` are `Option.none`.
* A user-supplied state handler is an opaque JS function; it is abstracted by
  its observable behavior on invocation (`HandlerBehavior`): return normally
  or throw.  The defensive wrapper the constructor installs (lines 327-342)
  re-throws any exception after an advisory `console.warn`, so wrapping
  preserves this behavior; `console.warn` itself is not an observable modeled
  here.
* `emit` on the namespaced event bus invokes the listeners of the event
  synchronously in subscription order; an exception thrown by a listener
  propagates to the emitter and keeps later listeners from running (standard
  EventEmitter semantics, as described in sections 5 and 7 of the spec).
* The JS normalization `value.toString().trim().toLowerCase()` is modeled on
  Lean strings with explicit structurally-recursive list operations
  (`jsTrim`, `jsToLower`) so that concrete instances evaluate.
-/

namespace ViewRegistry

/-- `NGN.coalesce(x, d)`: the first non-null argument. -/
def NGN.coalesce {α : Type} (x : Option α) (d : α) : α := x.getD d

/-- JS bracket access `obj[k]` on a string-keyed object: the value stored
under the first occurrence of `k`, or `undefined`. -/
def jsGet {α : Type} (obj : List (String × α)) (k : String) : Option α :=
  (obj.find? (fun p => p.1 == k)).map Prod.snd

/-- JS `obj.hasOwnProperty(k)`. -/
def jsHasOwnProperty {α : Type} (obj : List (String × α)) (k : String) : Bool :=
  (obj.find? (fun p => p.1 == k)).isSome

/-- JS assignment `obj[k] = v`: overwrite the existing entry, or append a new
one. -/
def jsSet {α : Type} (obj : List (String × α)) (k : String) (v : α) :
    List (String × α) :=
  if jsHasOwnProperty obj k then
    obj.map (fun p => if p.1 == k then (p.1, v) else p)
  else
    obj ++ [(k, v)]

/-- JS `delete obj[k]`. -/
def jsDelete {α : Type} (obj : List (String × α)) (k : String) :
    List (String × α) :=
  obj.filter (fun p => p.1 != k)

/-- `String.prototype.trim`: drop whitespace from both ends. -/
def jsTrim (s : String) : String :=
  ⟨((s.data.dropWhile Char.isWhitespace).reverse.dropWhile
      Char.isWhitespace).reverse⟩

/-- `String.prototype.toLowerCase` (ASCII case mapping). -/
def jsToLower (s : String) : String :=
  ⟨s.data.map Char.toLower⟩

/-- The state normalization `value.toString().trim().toLowerCase()` of
line 402, for string-valued assignments (`toString` is the identity there). -/
def normalizeState (value : String) : String :=
  jsToLower (jsTrim value)

/-- Observable behavior of a user-supplied state handler when it is invoked:
either it returns normally or it throws (the message of the thrown error). -/
inductive HandlerBehavior where
  | ok : HandlerBehavior
  | throws (msg : String) : HandlerBehavior
deriving DecidableEq, Repr

/-- An exception propagating out of a registry operation. -/
inductive JSError where
  /-- a `TypeError`, e.g. `.apply` invoked on `undefined` (line 346) or a
  property assignment on `null` (line 464). -/
  | typeError : JSError
  /-- an exception thrown by a user-supplied handler, re-thrown by the
  defensive wrapper of lines 327-342. -/
  | userError (msg : String) : JSError
deriving DecidableEq, Repr

/-- Payload of a `state.changed` event (lines 404-407). -/
structure StateChange where
  old : String
  new : String
deriving DecidableEq, Repr

/-- The registry fields that the state-machine core reads and writes.
Field names follow the source (lines 106-267). -/
structure Registry where
  /-- `selector` (line 112): the effective CSS selector after parent scoping. -/
  selector : String
  /-- `cfg.namespace` after the parent-scope concatenation of lines 76-82,
  as handed to the `NGNX.Driver` base class. -/
  nspace : Option String
  /-- truthiness of `_parent` (line 119): whether a parent registry is
  configured. -/
  _parent : Bool
  /-- `_states` (line 194): state name → handler (after the behavior-preserving
  defensive wrapping of lines 327-342, and after the synthesis of a `default`
  no-op of lines 270-272). -/
  _states : List (String × HandlerBehavior)
  /-- `_state` (line 196), initialized to `"default"`, never `null`. -/
  _state : Option String
  /-- `_reactions` (line 266): `NGN.coalesce(cfg.reactions)`, i.e. `null` when
  `cfg.reactions` was absent, and `null` again after `clearReactions`. -/
  _reactions : Option (List (String × String))
  /-- `initialstate` (line 204). -/
  initialstate : String
  /-- `cfg.references` after the scoping rewrite of lines 86-90. -/
  references : List (String × String)
deriving DecidableEq, Repr

/-- Getter `reactions` (lines 371-373): `NGN.coalesce(this._reactions, {})`. -/
def Registry.reactions (r : Registry) : List (String × String) :=
  NGN.coalesce r._reactions []

/-- Getter `state` (lines 379-381): `NGN.coalesce(this._state, "default")`. -/
def Registry.state (r : Registry) : String :=
  NGN.coalesce r._state "default"

/-- `managesState` (lines 434-436).  Every value stored in `_states` is a
handler function, so the `typeof === "function"` conjunct always passes. -/
def Registry.managesState (r : Registry) (state : String) : Bool :=
  jsHasOwnProperty r._states state

/-- `managesReaction` (lines 446-448). -/
def Registry.managesReaction (r : Registry) (state : String) : Bool :=
  jsHasOwnProperty r.reactions state

/-- Everything observable about one `state = value` assignment on a single
registry. -/
structure SetStateResult where
  registry : Registry
  /-- the `state.changed` events emitted on this registry, in order. -/
  events : List StateChange
  /-- the keys of `_states` whose handler the dispatch listener invoked. -/
  invoked : List String
  /-- the exception propagating to the caller of the assignment, if any. -/
  thrown : Option JSError
deriving DecidableEq, Repr

/-- Setter `state` (lines 395-410) together with the synchronous work of the
permanently-attached `state.changed` listener of lines 344-347.  Notes:
* the no-op comparison of line 397 is `this.state === value` — it compares the
  RAW value against the current state, before any normalization;
* the dispatch listener looks up
  `this._states[NGN.coalesce(change.new, "default")]`; `change.new` is never
  null, so no fallback to `default` happens for an unknown state — the lookup
  yields `undefined` and `.apply` on it throws a `TypeError`;
* a throw from the handler (re-thrown by its wrapper) or from the lookup
  propagates out of the emit and out of the assignment, after `_state` was
  already updated (line 402 precedes line 404). -/
def Registry.setState (r : Registry) (value : String) : SetStateResult :=
  if r.state = value then
    { registry := r, events := [], invoked := [], thrown := none }
  else
    let old := r.state
    let newState := normalizeState value
    let r' := { r with _state := some newState }
    let change : StateChange := { old := old, new := newState }
    match jsGet r'._states (NGN.coalesce (some newState) "default") with
    | none =>
        { registry := r', events := [change], invoked := [],
          thrown := some JSError.typeError }
    | some HandlerBehavior.ok =>
        { registry := r', events := [change], invoked := [newState],
          thrown := none }
    | some (HandlerBehavior.throws msg) =>
        { registry := r', events := [change], invoked := [newState],
          thrown := some (JSError.userError msg) }

/-- A parent registry together with one child registry that was constructed
with `cfg.parent` set to that parent.  The constructor of the child attached,
on the `state.changed` event of the parent, first the dispatch listener of the
parent itself (lines 344-347, attached when the parent was constructed) and
then the forwarding listener of the child (lines 311-313); the child also
carries the reaction listener of lines 320-325 on its own
`parent.state.changed` event. -/
structure ParentChild where
  parent : Registry
  child : Registry
deriving DecidableEq, Repr

/-- Everything observable about one `state = value` assignment on the parent
of a `ParentChild` pair. -/
structure CascadeResult where
  parent : Registry
  child : Registry
  /-- the `state.changed` events emitted on the parent. -/
  parentEvents : List StateChange
  /-- the `state.changed` events emitted on the child. -/
  childEvents : List StateChange
  /-- the exception propagating to the caller of the assignment, if any. -/
  thrown : Option JSError
deriving DecidableEq, Repr

/-- Assignment `parent.state = value` with the full synchronous cascade: the
parent setter (lines 395-410) emits `state.changed`, whose listeners run in
subscription order — (1) the dispatch listener of the parent (lines 344-347),
(2) the forwarding listener of the child (lines 311-313), which re-emits the
payload as `parent.state.changed` on the child, where the reaction listener
(lines 320-325) checks `managesReaction(state.new)` and, if so, performs the
child assignment `this.state = this.reactions[state.new]`.  An exception from
an earlier listener keeps the later ones from running. -/
def ParentChild.setParentState (sys : ParentChild) (value : String) :
    CascadeResult :=
  if sys.parent.state = value then
    { parent := sys.parent, child := sys.child, parentEvents := [],
      childEvents := [], thrown := none }
  else
    let old := sys.parent.state
    let newState := normalizeState value
    let p' := { sys.parent with _state := some newState }
    let change : StateChange := { old := old, new := newState }
    match jsGet p'._states (NGN.coalesce (some newState) "default") with
    | none =>
        { parent := p', child := sys.child, parentEvents := [change],
          childEvents := [], thrown := some JSError.typeError }
    | some (HandlerBehavior.throws msg) =>
        { parent := p', child := sys.child, parentEvents := [change],
          childEvents := [], thrown := some (JSError.userError msg) }
    | some HandlerBehavior.ok =>
        match jsGet sys.child.reactions newState with
        | none =>
            { parent := p', child := sys.child, parentEvents := [change],
              childEvents := [], thrown := none }
        | some target =>
            let cres := sys.child.setState target
            { parent := p', child := cres.registry, parentEvents := [change],
              childEvents := cres.events, thrown := cres.thrown }

/-- The payload of the uniform `property.changed` event (lines 283-305). -/
structure PropertyChanged where
  property : String
  old : Option String
  new : Option String
deriving DecidableEq, Repr

/-- An event of the underlying `NGN.DATA.Model` property store (external
collaborator), as consumed by the three listeners of lines 283-305. -/
inductive FieldEvent where
  /-- `field.update` with `change.field`, `change.old`, `change.new`. -/
  | update (field : String) (old new : Option String) : FieldEvent
  /-- `field.create` with `change.field`. -/
  | create (field : String) : FieldEvent
  /-- `field.delete` with `change.field` and `change.value` (the deleted
  value). -/
  | delete (field : String) (value : Option String) : FieldEvent
deriving DecidableEq, Repr

/-- The translation performed by the three listeners of lines 283-305.
`properties` is the current field-value store of the underlying model, read by
the `field.create` listener as `NGN.coalesce(this._properties[change.field])`
(single-argument coalesce: the value, or `null`). -/
def translateFieldEvent (properties : List (String × String)) :
    FieldEvent → PropertyChanged
  | FieldEvent.update f o n => { property := f, old := o, new := n }
  | FieldEvent.create f => { property := f, old := none,
                             new := jsGet properties f }
  | FieldEvent.delete f v => { property := f, old := v, new := none }

/-- `createReaction` (lines 458-465).  With no parent configured the method
logs a `console.warn` (not an observable modeled here) and returns; otherwise
it performs `this._reactions[source] = target`, which is a `TypeError` when
`_reactions` is `null` (no `cfg.reactions` supplied, or cleared). -/
def Registry.createReaction (r : Registry) (source target : String) :
    Except JSError Registry :=
  if !r._parent then
    Except.ok r
  else
    match r._reactions with
    | none => Except.error JSError.typeError
    | some m => Except.ok { r with _reactions := some (jsSet m source target) }

/-- `removeReaction` (lines 473-477): guarded by
`this.reactions.hasOwnProperty(source)` (the coalesced getter), then
`delete this._reactions[source]` — which would be a `TypeError` on `null`,
but the guard makes that branch unreachable. -/
def Registry.removeReaction (r : Registry) (source : String) :
    Except JSError Registry :=
  if r.managesReaction source then
    match r._reactions with
    | none => Except.error JSError.typeError
    | some m => Except.ok { r with _reactions := some (jsDelete m source) }
  else
    Except.ok r

/-- `clearReactions` (lines 483-485): `this._reactions = null`. -/
def Registry.clearReactions (r : Registry) : Registry :=
  { r with _reactions := none }

/-- The DOM as consulted by the constructor: how many elements match each
selector (absent entry = zero matches). -/
structure Document where
  matchCounts : List (String × Nat)
deriving DecidableEq, Repr

/-- Number of DOM elements matching a selector. -/
def countMatches (doc : Document) (selector : String) : Nat :=
  NGN.coalesce (jsGet doc.matchCounts selector) 0

/-- `document.querySelector`: the FIRST matching element, or `null` when
there is none.  Element identity is irrelevant to the registry core, so the
found element is collapsed to `Unit`. -/
def querySelector (doc : Document) (selector : String) : Option Unit :=
  if 0 < countMatches doc selector then some () else none

/-- Modelled from the spec: the two fields of a parent registry consulted by
the constructor (lines 68-82).  The base class `NGNX.Driver` providing the
`scope` accessor is not under `src/`; per section 3 of the spec the scope is
the namespace prefix of the parent — a string, or `null` when the parent has
none. -/
structure ParentRef where
  selector : String
  scope : Option String
deriving DecidableEq, Repr

/-- The configuration record handed to the constructor, restricted to the
options the registry core reads.  `Option` encodes `cfg.hasOwnProperty`
presence; `properties` records only whether `cfg.properties` was supplied
(its content is consumed by the external `NGN.DATA.Model`). -/
structure Config where
  selector? : Option String
  nspace? : Option String
  parent? : Option ParentRef
  references : List (String × String)
  properties : Bool
  states? : Option (List (String × HandlerBehavior))
  initialState? : Option String
  reactions? : Option (List (String × String))
deriving DecidableEq, Repr

deriving instance DecidableEq for Except

/-- A side effect of construction that is observable on the event system or
the reference table. -/
inductive Effect where
  /-- `NGN.ref.create(this.id, this.selector)` (line 275). -/
  | refCreate (selector : String) : Effect
  /-- a listener attached to the named event. -/
  | subscribe (event : String) : Effect
  /-- `NGNX.util.requeue(...)` scheduling the deferred initial transition
  (lines 350-354). -/
  | requeue : Effect
deriving DecidableEq, Repr

/-- A configuration error thrown synchronously by the constructor. -/
inductive ConstructError where
  /-- line 64: `Missing required configuration attribute: selector`. -/
  | missingSelector : ConstructError
  /-- line 70: `Parent component could not be found.` -/
  | parentNotFound : ConstructError
  /-- line 95: `Could not find valid DOM element for selector`. -/
  | elementNotFound (selector : String) : ConstructError
deriving DecidableEq, Repr

/-- Outcome of running the constructor: the effects performed (in order), and
either the thrown configuration error or the constructed registry together
with the pending deferred initial-state assignment (`some initialstate` when
line 351 scheduled one). -/
structure ConstructResult where
  effects : List Effect
  result : Except ConstructError (Registry × Option String)
deriving DecidableEq, Repr

/-- The namespace-prefix concatenation of lines 75-82: with an own
`cfg.namespace`, the parent scope (when not null) is prepended; without one,
the namespace becomes the parent scope when that is truthy (a non-empty
string). -/
def inheritNamespace (scope : Option String) (ns? : Option String) :
    Option String :=
  match ns?, scope with
  | some ns, some sc => some (sc ++ ns)
  | some ns, none => some ns
  | none, some sc => if sc = "" then none else some sc
  | none, none => none

/-- Lines 85-354 of the constructor, after the selector has been scoped under
the parent: the `references` rewrite, the single-element check of lines 92-96,
the `NGNX.Driver` initialization (external), the field initialization of
lines 106-267, the `default` handler synthesis (lines 269-272), the
self-reference registration (line 275), the property-model subscriptions
(lines 277-306), the parent forwarding subscriptions (lines 308-318), the
reaction listener (lines 320-325), the behavior-preserving handler wrapping
(lines 327-342), the dispatch listener (lines 344-347) and the deferred
initial transition (lines 349-354). -/
def constructScoped (cfg : Config) (doc : Document) (sel : String)
    (ns : Option String) : ConstructResult :=
  let refs := cfg.references.map (fun p => (p.1, sel ++ " " ++ p.2))
  match querySelector doc sel with
  | none => { effects := [], result := Except.error (ConstructError.elementNotFound sel) }
  | some _ =>
    let states0 := NGN.coalesce cfg.states? []
    let statesD := if jsHasOwnProperty states0 "default" then states0
                   else jsSet states0 "default" HandlerBehavior.ok
    let initialstate := NGN.coalesce cfg.initialState? "default"
    let r : Registry :=
      { selector := sel, nspace := ns, _parent := cfg.parent?.isSome,
        _states := statesD, _state := some "default",
        _reactions := cfg.reactions?, initialstate := initialstate,
        references := refs }
    let defers := (initialstate != "default") && r.managesState initialstate
    { effects :=
        [Effect.refCreate sel] ++
        (if cfg.properties then
          [Effect.subscribe "field.update", Effect.subscribe "field.create",
           Effect.subscribe "field.delete"]
         else []) ++
        (if cfg.parent?.isSome then
          [Effect.subscribe "parent:state.changed",
           Effect.subscribe "parent:property.changed"]
         else []) ++
        [Effect.subscribe "parent.state.changed",
         Effect.subscribe "state.changed"] ++
        (if defers then [Effect.requeue] else []),
      result := Except.ok (r, if defers then some initialstate else none) }

/-- The constructor (lines 54-355): validation in source order — `selector`
presence (lines 63-65), parent resolution and scoping (lines 67-83), then
`constructScoped` for the rest.  The `typeof cfg` check of lines 57-60 is
made vacuous by the typing of `Config`. -/
def construct (cfg : Config) (doc : Document) : ConstructResult :=
  match cfg.selector? with
  | none => { effects := [], result := Except.error ConstructError.missingSelector }
  | some sel0 =>
    match cfg.parent? with
    | some p =>
      if querySelector doc p.selector = none then
        { effects := [], result := Except.error ConstructError.parentNotFound }
      else
        constructScoped cfg doc (p.selector ++ " " ++ sel0)
          (inheritNamespace p.scope cfg.nspace?)
    | none => constructScoped cfg doc sel0 cfg.nspace?

/-! ## General lemmas about the JS object model and the state setter -/

theorem jsHasOwnProperty_eq_isSome {α : Type} (obj : List (String × α))
    (k : String) : jsHasOwnProperty obj k = (jsGet obj k).isSome := by
  unfold jsGet jsHasOwnProperty
  cases obj.find? (fun p => p.1 == k) <;> simp

theorem jsGet_map_replace {α : Type} (k : String) (v : α) :
    ∀ obj : List (String × α), jsHasOwnProperty obj k = true →
      jsGet (obj.map (fun p => if p.1 == k then (p.1, v) else p)) k = some v := by
  intro obj
  induction obj with
  | nil => intro h; simp [jsHasOwnProperty] at h
  | cons p t ih =>
    intro h
    obtain ⟨a, b⟩ := p
    by_cases hak : (a == k) = true
    · simp [jsGet, List.find?, hak]
    · have hak' : (a == k) = false := by
        cases hab : (a == k) with
        | true => exact absurd hab hak
        | false => rfl
      simp only [jsHasOwnProperty, List.find?, hak', List.map] at h ⊢
      simpa [jsGet, List.find?, hak'] using ih h

theorem jsGet_append_new {α : Type} (k : String) (v : α) :
    ∀ obj : List (String × α), jsHasOwnProperty obj k = false →
      jsGet (obj ++ [(k, v)]) k = some v := by
  intro obj
  induction obj with
  | nil => intro _; simp [jsGet, List.find?]
  | cons p t ih =>
    intro h
    obtain ⟨a, b⟩ := p
    by_cases hak : (a == k) = true
    · simp [jsHasOwnProperty, List.find?, hak] at h
    · have hak' : (a == k) = false := by
        cases hab : (a == k) with
        | true => exact absurd hab hak
        | false => rfl
      simp only [jsHasOwnProperty, List.find?, hak'] at h
      simpa [jsGet, List.find?, hak'] using ih h

theorem jsGet_jsSet_self {α : Type} (obj : List (String × α)) (k : String)
    (v : α) : jsGet (jsSet obj k v) k = some v := by
  unfold jsSet
  by_cases h : jsHasOwnProperty obj k = true
  · rw [if_pos h]; exact jsGet_map_replace k v obj h
  · have h' : jsHasOwnProperty obj k = false := by
      cases hb : jsHasOwnProperty obj k with
      | true => exact absurd hb h
      | false => rfl
    rw [if_neg (by simp [h'])]
    exact jsGet_append_new k v obj h'

theorem setState_of_eq (r : Registry) (v : String) (h : r.state = v) :
    r.setState v = { registry := r, events := [], invoked := [], thrown := none } := by
  unfold Registry.setState
  rw [if_pos h]

theorem setState_registry_of_ne (r : Registry) (v : String) (h : r.state ≠ v) :
    (r.setState v).registry = { r with _state := some (normalizeState v) } := by
  simp only [Registry.setState, if_neg h]
  split <;> rfl

theorem setState_events_of_ne (r : Registry) (v : String) (h : r.state ≠ v) :
    (r.setState v).events = [{ old := r.state, new := normalizeState v }] := by
  simp only [Registry.setState, if_neg h]
  split <;> rfl

/-! ## Claim theorems -/

/-- C1 (amended): for every registry whose current state is
normalization-fixed (an invariant of every reachable registry) and every
value `v` whose normalization differs from the current state, the assignment
`state = v` emits exactly one `state.changed` event with payload
`old = previous state`, `new = normalize(v)`; the dispatch listener invokes
the handler `states[normalize(v)]` exactly once when `normalize(v)` is a key
of `states` — but there is NO fallback to `states["default"]` otherwise:
for an unknown state no handler is invoked and a `TypeError` propagates. -/
theorem c1_transition_event_dispatch (r : Registry) (v : String)
    (hnorm : normalizeState r.state = r.state)
    (hne : normalizeState v ≠ r.state) :
    (r.setState v).events = [{ old := r.state, new := normalizeState v }] ∧
    (r.managesState (normalizeState v) = true →
      (r.setState v).invoked = [normalizeState v]) ∧
    (r.managesState (normalizeState v) = false →
      (r.setState v).invoked = [] ∧
      (r.setState v).thrown = some JSError.typeError) := by
  have hraw : r.state ≠ v := by
    intro h
    apply hne
    rw [← h]
    exact hnorm
  simp only [Registry.setState, if_neg hraw, NGN.coalesce, Option.getD,
    Registry.managesState, jsHasOwnProperty_eq_isSome]
  rcases hjs : jsGet r._states (normalizeState v) with _ | b
  · simp [hjs]
  · cases b <;> simp [hjs]

def c1reg : Registry :=
  { selector := "body", nspace := none, _parent := false,
    _states := [("default", HandlerBehavior.ok), ("online", HandlerBehavior.ok)],
    _state := some "default", _reactions := none,
    initialstate := "default", references := [] }

/-- Witness for C1: a concrete registry in state `default` assigned
`"ONLINE"` transitions to `online` with one event and one handler
invocation. -/
theorem c1_witness :
    normalizeState c1reg.state = c1reg.state ∧
    normalizeState "ONLINE" ≠ c1reg.state ∧
    ((c1reg.setState "ONLINE").events =
        [{ old := "default", new := "online" }] ∧
      (c1reg.managesState (normalizeState "ONLINE") = true →
        (c1reg.setState "ONLINE").invoked = [normalizeState "ONLINE"]) ∧
      (c1reg.managesState (normalizeState "ONLINE") = false →
        (c1reg.setState "ONLINE").invoked = [] ∧
        (c1reg.setState "ONLINE").thrown = some JSError.typeError)) :=
  ⟨by decide, by decide, by
    have h := c1_transition_event_dispatch c1reg "ONLINE" (by decide) (by decide)
    simpa using h⟩

/-- Counterexample for C1 as stated: `c1reg` manages only `default` and
`online`; assigning the unknown state `"unknown"` does NOT fall back to the
`default` handler — no handler is invoked and a `TypeError` propagates. -/
theorem c1_counterexample :
    normalizeState "unknown" ≠ c1reg.state ∧
    c1reg.managesState "default" = true ∧
    c1reg.managesState (normalizeState "unknown") = false ∧
    (c1reg.setState "unknown").invoked = [] ∧
    (c1reg.setState "unknown").thrown = some JSError.typeError := by
  decide

/-- C2 (amended): the no-op comparison of line 397 happens BEFORE
normalization, on the raw value: assigning a value that is strictly equal to
the current state is a complete no-op (no event, no handler, state
unchanged); consequently re-applying the same final state repeatedly triggers
exactly one transition PROVIDED the re-applied value equals its own
normalization — the second and every later assignment of such a value is a
no-op. -/
theorem c2_raw_comparison_idempotence (r : Registry) (v : String) :
    (v = r.state →
      r.setState v = { registry := r, events := [], invoked := [], thrown := none }) ∧
    (normalizeState v = v →
      ((r.setState v).registry.setState v) =
        { registry := (r.setState v).registry, events := [], invoked := [],
          thrown := none }) := by
  constructor
  · intro h
    exact setState_of_eq r v h.symm
  · intro hv
    by_cases h : r.state = v
    · rw [setState_of_eq r v h]
      exact setState_of_eq r v h
    · have hreg : (r.setState v).registry =
          { r with _state := some (normalizeState v) } :=
        setState_registry_of_ne r v h
      apply setState_of_eq
      rw [hreg]
      simp [Registry.state, NGN.coalesce, hv]

def c2reg : Registry :=
  { selector := "body", nspace := none, _parent := false,
    _states := [("default", HandlerBehavior.ok), ("online", HandlerBehavior.ok)],
    _state := some "online", _reactions := none,
    initialstate := "default", references := [] }

/-- Witness for C2: re-assigning the already-normalized value `"online"` to a
registry already in state `online` is a complete no-op, and so is the second
of two consecutive assignments of `"online"`. -/
theorem c2_witness :
    ("online" = c2reg.state →
      c2reg.setState "online" =
        { registry := c2reg, events := [], invoked := [], thrown := none }) ∧
    (normalizeState "online" = "online" →
      ((c2reg.setState "online").registry.setState "online") =
        { registry := (c2reg.setState "online").registry, events := [],
          invoked := [], thrown := none }) :=
  c2_raw_comparison_idempotence c2reg "online"

/-- Counterexample for C2 as stated: `c2reg` is in state `online` and is
assigned `" ONLINE "`, whose normalization equals the current state; the
claim calls this a complete no-op, but the raw comparison of line 397 fails
(`" ONLINE " !== "online"`), so a `state.changed` event with
`old = new = "online"` is emitted and the `online` handler is invoked. -/
theorem c2_counterexample :
    normalizeState " ONLINE " = c2reg.state ∧
    (c2reg.setState " ONLINE ").events =
      [{ old := "online", new := "online" }] ∧
    (c2reg.setState " ONLINE ").invoked = ["online"] := by
  decide

/-- C3 (confirmed): a user-supplied handler that throws during the dispatch
triggered by `state = v` has its exception re-thrown to the caller of the
assignment, and the registry state already equals the new normalized value —
there is no rollback. -/
theorem c3_handler_throw_no_rollback (r : Registry) (v msg : String)
    (hraw : r.state ≠ v)
    (hthrow : jsGet r._states (normalizeState v) =
      some (HandlerBehavior.throws msg)) :
    (r.setState v).thrown = some (JSError.userError msg) ∧
    (r.setState v).registry.state = normalizeState v := by
  simp only [Registry.setState, if_neg hraw, NGN.coalesce, Option.getD]
  rw [show ({ r with _state := some (normalizeState v) } : Registry)._states
        = r._states from rfl, hthrow]
  exact ⟨rfl, rfl⟩

def c3reg : Registry :=
  { selector := "body", nspace := none, _parent := false,
    _states := [("default", HandlerBehavior.ok),
                ("boom", HandlerBehavior.throws "kaput")],
    _state := some "default", _reactions := none,
    initialstate := "default", references := [] }

/-- Witness for C3: assigning `"BOOM"` to a registry whose `boom` handler
throws — the exception propagates and the state is already `boom`. -/
theorem c3_witness :
    c3reg.state ≠ "BOOM" ∧
    jsGet c3reg._states (normalizeState "BOOM") =
      some (HandlerBehavior.throws "kaput") ∧
    ((c3reg.setState "BOOM").thrown = some (JSError.userError "kaput") ∧
      (c3reg.setState "BOOM").registry.state = normalizeState "BOOM") :=
  ⟨by decide, by decide,
    c3_handler_throw_no_rollback c3reg "BOOM" "kaput" (by decide) (by decide)⟩

theorem constructScoped_ok (cfg : Config) (doc : Document) (sel : String)
    (ns : Option String) (r : Registry) (d : Option String)
    (hres : (constructScoped cfg doc sel ns).result = Except.ok (r, d)) :
    r = { selector := sel, nspace := ns, _parent := cfg.parent?.isSome,
          _states :=
            (if jsHasOwnProperty (NGN.coalesce cfg.states? []) "default" then
              NGN.coalesce cfg.states? []
             else jsSet (NGN.coalesce cfg.states? []) "default" HandlerBehavior.ok),
          _state := some "default", _reactions := cfg.reactions?,
          initialstate := NGN.coalesce cfg.initialState? "default",
          references := cfg.references.map (fun p => (p.1, sel ++ " " ++ p.2)) } ∧
    d = (if (NGN.coalesce cfg.initialState? "default" != "default")
            && r.managesState (NGN.coalesce cfg.initialState? "default")
         then some (NGN.coalesce cfg.initialState? "default") else none) := by
  simp only [constructScoped] at hres
  rcases hq : querySelector doc sel with _ | u
  · rw [hq] at hres
    simp at hres
  · rw [hq] at hres
    simp only [Except.ok.injEq, Prod.mk.injEq] at hres
    obtain ⟨hr, hd⟩ := hres
    subst hr
    exact ⟨rfl, hd.symm⟩

theorem construct_ok (cfg : Config) (doc : Document) (r : Registry)
    (d : Option String)
    (hres : (construct cfg doc).result = Except.ok (r, d)) :
    ∃ sel0, cfg.selector? = some sel0 ∧
      ((cfg.parent? = none ∧
          (constructScoped cfg doc sel0 cfg.nspace?).result = Except.ok (r, d)) ∨
       (∃ p, cfg.parent? = some p ∧ querySelector doc p.selector ≠ none ∧
          (constructScoped cfg doc (p.selector ++ " " ++ sel0)
            (inheritNamespace p.scope cfg.nspace?)).result = Except.ok (r, d))) := by
  rcases hsel : cfg.selector? with _ | sel0
  · simp only [construct, hsel] at hres
    simp at hres
  · refine ⟨sel0, rfl, ?_⟩
    rcases hpar : cfg.parent? with _ | p
    · simp only [construct, hsel, hpar] at hres
      exact Or.inl ⟨rfl, hres⟩
    · simp only [construct, hsel, hpar] at hres
      by_cases hq : querySelector doc p.selector = none
      · rw [if_pos hq] at hres
        simp at hres
      · rw [if_neg hq] at hres
        exact Or.inr ⟨p, rfl, hq, hres⟩

/-- C4 (amended): for a parent/child pair whose child reactions map contains
`source ↦ target`, setting the parent state to `source` drives the child
through a normal transition to `normalize(target)`, provided `source` equals
its own normalization (the reaction lookup uses the NORMALIZED new parent
state as key) and the parent manages a non-throwing handler for `source` (the
parent dispatch listener runs before the child forwarding listener, so a
parent-side throw would keep the child from reacting).  If the child state
already equals the raw `target`, the child is untouched and no additional
`state.changed` event fires on it. -/
theorem c4_reaction_cascade (sys : ParentChild) (source target : String)
    (hreac : jsGet sys.child.reactions source = some target)
    (hne : sys.parent.state ≠ source)
    (hnorm : normalizeState source = source)
    (hph : jsGet sys.parent._states source = some HandlerBehavior.ok) :
    (sys.setParentState source).parentEvents =
      [{ old := sys.parent.state, new := source }] ∧
    (sys.child.state = target →
      (sys.setParentState source).child = sys.child ∧
      (sys.setParentState source).childEvents = []) ∧
    (sys.child.state ≠ target →
      (sys.setParentState source).child.state = normalizeState target ∧
      (sys.setParentState source).childEvents =
        [{ old := sys.child.state, new := normalizeState target }]) := by
  simp only [ParentChild.setParentState, if_neg hne, NGN.coalesce, Option.getD,
    hnorm]
  rw [show ({ sys.parent with _state := some source } : Registry)._states
        = sys.parent._states from rfl, hph, hreac]
  dsimp only
  refine ⟨rfl, ?_, ?_⟩
  · intro h
    rw [setState_of_eq sys.child target h]
    exact ⟨rfl, rfl⟩
  · intro h
    refine ⟨?_, ?_⟩
    · rw [setState_registry_of_ne sys.child target (by simpa using h)]
      rfl
    · rw [setState_events_of_ne sys.child target (by simpa using h)]

def c4parent : Registry :=
  { selector := "main", nspace := none, _parent := false,
    _states := [("default", HandlerBehavior.ok), ("connected", HandlerBehavior.ok)],
    _state := some "default", _reactions := none,
    initialstate := "default", references := [] }

def c4child : Registry :=
  { selector := "main .child", nspace := none, _parent := true,
    _states := [("default", HandlerBehavior.ok), ("online", HandlerBehavior.ok)],
    _state := some "default", _reactions := some [("connected", "online")],
    initialstate := "default", references := [] }

/-- Witness for C4: the reaction `connected ↦ online` drives the child from
`default` to `online` when the parent is set to `connected`. -/
theorem c4_witness :
    jsGet c4child.reactions "connected" = some "online" ∧
    c4parent.state ≠ "connected" ∧
    normalizeState "connected" = "connected" ∧
    jsGet c4parent._states "connected" = some HandlerBehavior.ok ∧
    (c4child.state ≠ "online" →
      ((⟨c4parent, c4child⟩ : ParentChild).setParentState "connected").child.state
          = normalizeState "online" ∧
      ((⟨c4parent, c4child⟩ : ParentChild).setParentState "connected").childEvents
          = [{ old := c4child.state, new := normalizeState "online" }]) :=
  ⟨by decide, by decide, by decide, by decide,
    (c4_reaction_cascade ⟨c4parent, c4child⟩ "connected" "online" (by decide)
      (by decide) (by decide) (by decide)).2.2⟩

def c4childX : Registry :=
  { selector := "main .child", nspace := none, _parent := true,
    _states := [("default", HandlerBehavior.ok), ("online", HandlerBehavior.ok)],
    _state := some "default", _reactions := some [("Connected", "online")],
    initialstate := "default", references := [] }

/-- Counterexample for C4 as stated: the child reactions map contains the
entry `Connected ↦ online`, but the reaction lookup keys on the NORMALIZED
new parent state (`"connected"`), so setting the parent state to
`"Connected"` leaves the child in `default` instead of `online`. -/
theorem c4_counterexample :
    jsGet c4childX.reactions "Connected" = some "online" ∧
    ((⟨c4parent, c4childX⟩ : ParentChild).setParentState "Connected").child.state
      = "default" ∧
    ("default" : String) ≠ "online" ∧
    ((⟨c4parent, c4childX⟩ : ParentChild).setParentState "Connected").childEvents
      = [] := by
  decide

/-- C5 (amended): construction never applies the initial transition itself —
the state after construction is `default` — and the deferred assignment
`state = initialstate` is scheduled exactly when `initialState` differs from
`default` AND is a managed state (otherwise NO transition ever occurs, so the
post-deferral state stays `default` and does not equal the configured
`initialState`); when scheduled, running it puts the registry in
`normalize(initialState)`, which equals the configured value whenever that
value is its own normalization (as in the spec example `offline`). -/
theorem c5_deferred_initial_state (cfg : Config) (doc : Document)
    (r : Registry) (d : Option String) (i : String)
    (hres : (construct cfg doc).result = Except.ok (r, d))
    (hi : cfg.initialState? = some i) :
    r.state = "default" ∧
    d = (if (i != "default") && r.managesState i then some i else none) ∧
    (∀ j, d = some j → (r.setState j).registry.state = normalizeState j) := by
  obtain ⟨sel0, hsel, hbranch⟩ := construct_ok cfg doc r d hres
  have hmain : r._state = some "default" ∧
      d = (if (NGN.coalesce cfg.initialState? "default" != "default")
              && r.managesState (NGN.coalesce cfg.initialState? "default")
           then some (NGN.coalesce cfg.initialState? "default") else none) := by
    rcases hbranch with ⟨_, hsc⟩ | ⟨p, _, _, hsc⟩ <;>
      · obtain ⟨hr, hd⟩ := constructScoped_ok _ _ _ _ _ _ hsc
        subst hr
        exact ⟨rfl, hd⟩
  obtain ⟨hstate, hd⟩ := hmain
  rw [hi] at hd
  simp only [NGN.coalesce, Option.getD] at hd
  have hrstate : r.state = "default" := by
    simp [Registry.state, NGN.coalesce, hstate]
  refine ⟨hrstate, hd, ?_⟩
  intro j hj
  rw [hd] at hj
  by_cases hcond : ((i != "default") && r.managesState i) = true
  · rw [if_pos hcond] at hj
    simp only [Option.some.injEq] at hj
    have hne : i ≠ "default" := by
      have := (Bool.and_eq_true _ _).mp hcond
      simpa [bne_iff_ne] using this.1
    have hraw : r.state ≠ j := by
      rw [hrstate, ← hj]
      exact fun hh => hne hh.symm
    rw [setState_registry_of_ne r j hraw]
    simp [Registry.state, NGN.coalesce]
  · rw [if_neg hcond] at hj
    exact absurd hj (by simp)

def c5cfg : Config :=
  { selector? := some "body", nspace? := none, parent? := none,
    references := [], properties := false,
    states? := some [("default", HandlerBehavior.ok),
                     ("offline", HandlerBehavior.ok),
                     ("online", HandlerBehavior.ok)],
    initialState? := some "offline", reactions? := none }

def c5doc : Document := { matchCounts := [("body", 1)] }

def c5reg : Registry :=
  { selector := "body", nspace := none, _parent := false,
    _states := [("default", HandlerBehavior.ok),
                ("offline", HandlerBehavior.ok),
                ("online", HandlerBehavior.ok)],
    _state := some "default", _reactions := none,
    initialstate := "offline", references := [] }

/-- Witness for C5: the spec scenario — states `default`/`offline`/`online`
with `initialState: "offline"` — defers the transition and ends in `offline`
once the deferred assignment runs. -/
theorem c5_witness :
    (construct c5cfg c5doc).result = Except.ok (c5reg, some "offline") ∧
    c5cfg.initialState? = some "offline" ∧
    (c5reg.state = "default" ∧
      some "offline" =
        (if ("offline" != "default") && c5reg.managesState "offline"
         then some "offline" else none) ∧
      (c5reg.setState "offline").registry.state = normalizeState "offline") :=
  ⟨by decide, rfl, by
    have h := c5_deferred_initial_state c5cfg c5doc c5reg (some "offline")
      "offline" (by decide) rfl
    exact ⟨h.1, h.2.1, h.2.2 "offline" rfl⟩⟩

def c5cfgX : Config :=
  { selector? := some "body", nspace? := none, parent? := none,
    references := [], properties := false,
    states? := some [("default", HandlerBehavior.ok)],
    initialState? := some "offline", reactions? := none }

def c5regX : Registry :=
  { selector := "body", nspace := none, _parent := false,
    _states := [("default", HandlerBehavior.ok)],
    _state := some "default", _reactions := none,
    initialstate := "offline", references := [] }

/-- Counterexample for C5 as stated: with `initialState: "offline"` but no
`offline` entry in `states`, line 350 never schedules the deferred
transition, so the post-deferral state is `default`, not the configured
`initialState`. -/
theorem c5_counterexample :
    c5cfgX.initialState? = some "offline" ∧
    (construct c5cfgX c5doc).result = Except.ok (c5regX, none) ∧
    c5regX.state = "default" ∧
    c5regX.state ≠ "offline" := by
  decide

/-- C6 (amended): an effective selector matching ZERO elements makes
construction fail synchronously with a descriptive error before any event
subscription or reference registration (the effect list is empty); a selector
matching MORE than one element is not rejected — `document.querySelector`
keeps the first match, so uniqueness is never checked. -/
theorem c6_zero_match_fails_early (cfg : Config) (doc : Document) (s : String)
    (hsel : cfg.selector? = some s) :
    (cfg.parent? = none → countMatches doc s = 0 →
      construct cfg doc =
        { effects := [],
          result := Except.error (ConstructError.elementNotFound s) }) ∧
    (∀ p, cfg.parent? = some p → querySelector doc p.selector ≠ none →
      countMatches doc (p.selector ++ " " ++ s) = 0 →
      construct cfg doc =
        { effects := [],
          result := Except.error
            (ConstructError.elementNotFound (p.selector ++ " " ++ s)) }) := by
  constructor
  · intro hpar hzero
    simp [construct, hsel, hpar, constructScoped, querySelector, hzero]
  · intro p hpar hq hzero
    simp only [construct, hsel, hpar, if_neg hq]
    simp [constructScoped, querySelector, hzero]

def c6cfg : Config :=
  { selector? := some ".gone", nspace? := none, parent? := none,
    references := [], properties := true,
    states? := none, initialState? := none, reactions? := none }

def c6doc : Document := { matchCounts := [] }

/-- Witness for C6: a selector matching nothing fails with the descriptive
error and an empty effect list. -/
theorem c6_witness :
    c6cfg.selector? = some ".gone" ∧
    c6cfg.parent? = none ∧
    countMatches c6doc ".gone" = 0 ∧
    construct c6cfg c6doc =
      { effects := [],
        result := Except.error (ConstructError.elementNotFound ".gone") } :=
  ⟨rfl, rfl, by decide,
    (c6_zero_match_fails_early c6cfg c6doc ".gone" rfl).1 rfl (by decide)⟩

def c6cfg2 : Config :=
  { selector? := some ".dup", nspace? := none, parent? := none,
    references := [], properties := false,
    states? := none, initialState? := none, reactions? := none }

def c6doc2 : Document := { matchCounts := [(".dup", 2)] }

/-- Counterexample for C6 as stated: a selector matching TWO elements does
not resolve to exactly one element, yet construction succeeds (the first
match is used) and performs its subscriptions. -/
theorem c6_counterexample :
    countMatches c6doc2 ".dup" = 2 ∧
    (construct c6cfg2 c6doc2).result.isOk = true ∧
    (construct c6cfg2 c6doc2).effects ≠ [] := by
  decide

/-- C7 (confirmed): with a configured parent, construction throws when the
parent selector resolves to no element; otherwise the effective selector is
`parent.selector + " " + selector` and the effective namespace prepends the
parent scope to the own namespace (and becomes the parent scope alone when no
own namespace was configured and the scope is a non-empty string). -/
theorem c7_parent_inheritance (cfg : Config) (doc : Document) (p : ParentRef)
    (s : String) (hsel : cfg.selector? = some s)
    (hpar : cfg.parent? = some p) :
    (querySelector doc p.selector = none →
      construct cfg doc =
        { effects := [], result := Except.error ConstructError.parentNotFound }) ∧
    (∀ r d, (construct cfg doc).result = Except.ok (r, d) →
      r.selector = p.selector ++ " " ++ s ∧
      (∀ sc ns, p.scope = some sc → cfg.nspace? = some ns →
        r.nspace = some (sc ++ ns)) ∧
      (∀ sc, p.scope = some sc → sc ≠ "" → cfg.nspace? = none →
        r.nspace = some sc)) := by
  constructor
  · intro hq
    simp [construct, hsel, hpar, hq]
  · intro r d hres
    obtain ⟨sel0, hsel', hbranch⟩ := construct_ok cfg doc r d hres
    rw [hsel] at hsel'
    have hsel0 : sel0 = s := by
      simpa using hsel'.symm
    subst hsel0
    rcases hbranch with ⟨hnone, _⟩ | ⟨p', hpar', _, hsc⟩
    · rw [hpar] at hnone
      exact absurd hnone (by simp)
    · rw [hpar] at hpar'
      have hp : p' = p := by
        simpa using hpar'.symm
      subst hp
      obtain ⟨hr, _⟩ := constructScoped_ok _ _ _ _ _ _ hsc
      subst hr
      refine ⟨rfl, ?_, ?_⟩
      · intro sc ns hscope hns
        simp [inheritNamespace, hscope, hns]
      · intro sc hscope hscne hns
        simp [inheritNamespace, hscope, hns, hscne]

def c7parent : ParentRef := { selector := "main", scope := some "app." }

def c7cfg : Config :=
  { selector? := some ".child", nspace? := some "child.",
    parent? := some c7parent, references := [], properties := false,
    states? := none, initialState? := none, reactions? := none }

def c7doc : Document :=
  { matchCounts := [("main", 1), ("main .child", 1)] }

def c7reg : Registry :=
  { selector := "main .child", nspace := some "app.child.", _parent := true,
    _states := [("default", HandlerBehavior.ok)],
    _state := some "default", _reactions := none,
    initialstate := "default", references := [] }

/-- Witness for C7: a child of a parent with selector `main` and scope `app.`
gets effective selector `main .child` and namespace `app.child.`. -/
theorem c7_witness :
    c7cfg.selector? = some ".child" ∧
    c7cfg.parent? = some c7parent ∧
    (construct c7cfg c7doc).result = Except.ok (c7reg, none) ∧
    c7reg.selector = "main" ++ " " ++ ".child" ∧
    c7reg.nspace = some ("app." ++ "child.") :=
  ⟨rfl, rfl, by decide,
    ((c7_parent_inheritance c7cfg c7doc c7parent ".child" rfl rfl).2 c7reg none
      (by decide)).1,
    ((c7_parent_inheritance c7cfg c7doc c7parent ".child" rfl rfl).2 c7reg none
      (by decide)).2.1 "app." "child." rfl rfl⟩

/-- C8 (confirmed): the three property-model field events are each translated
into one uniform `property.changed` event — `field.update` keeps the old and
new values, `field.create` reports `old = null` and the current field value,
`field.delete` reports the deleted value and `new = null`. -/
theorem c8_property_event_translation (properties : List (String × String))
    (f : String) (o n v : Option String) :
    translateFieldEvent properties (FieldEvent.update f o n) =
      { property := f, old := o, new := n } ∧
    translateFieldEvent properties (FieldEvent.create f) =
      { property := f, old := none, new := jsGet properties f } ∧
    translateFieldEvent properties (FieldEvent.delete f v) =
      { property := f, old := v, new := none } :=
  ⟨rfl, rfl, rfl⟩

/-- C9 (amended): `createReaction` with no configured parent is a no-op (only
a diagnostic is logged); with a parent it adds the entry ONLY when an internal
reactions object exists (i.e. `cfg.reactions` was supplied and
`clearReactions` has not nulled it) — when `_reactions` is `null`, the
assignment `this._reactions[source] = target` throws a `TypeError` instead of
adding the entry. -/
theorem c9_createReaction (r : Registry) (source target : String) :
    (r._parent = false → r.createReaction source target = Except.ok r) ∧
    (r._parent = true → r._reactions = none →
      r.createReaction source target = Except.error JSError.typeError) ∧
    (∀ m, r._parent = true → r._reactions = some m →
      ∃ r2, r.createReaction source target = Except.ok r2 ∧
        jsGet r2.reactions source = some target) := by
  refine ⟨?_, ?_, ?_⟩
  · intro h
    simp [Registry.createReaction, h]
  · intro h hr
    simp [Registry.createReaction, h, hr]
  · intro m h hr
    refine ⟨{ r with _reactions := some (jsSet m source target) }, ?_, ?_⟩
    · simp [Registry.createReaction, h, hr]
    · simp only [Registry.reactions, NGN.coalesce, Option.getD]
      exact jsGet_jsSet_self m source target

def c9reg : Registry :=
  { selector := "body", nspace := none, _parent := true,
    _states := [("default", HandlerBehavior.ok)],
    _state := some "default", _reactions := some [("connected", "online")],
    initialstate := "default", references := [] }

/-- Witness for C9: with a parent and an existing reactions object,
`createReaction` adds the entry. -/
theorem c9_witness :
    c9reg._parent = true ∧
    c9reg._reactions = some [("connected", "online")] ∧
    (∃ r2, c9reg.createReaction "lost" "offline" = Except.ok r2 ∧
      jsGet r2.reactions "lost" = some "offline") :=
  ⟨rfl, rfl,
    (c9_createReaction c9reg "lost" "offline").2.2 [("connected", "online")]
      rfl rfl⟩

def c9regX : Registry :=
  { selector := "body", nspace := none, _parent := true,
    _states := [("default", HandlerBehavior.ok)],
    _state := some "default", _reactions := none,
    initialstate := "default", references := [] }

/-- Counterexample for C9 as stated: a registry with a configured parent but
no reactions supplied at construction has `_reactions = null`, so
`createReaction` throws a `TypeError` instead of adding the entry. -/
theorem c9_counterexample :
    c9regX._parent = true ∧
    c9regX.createReaction "lost" "offline" = Except.error JSError.typeError ∧
    c9regX.reactions = [] := by
  decide

/-- C10 (confirmed): the `reactions` getter always yields an object — the
empty one when `_reactions` is `null` (nothing configured, or after
`clearReactions`); `removeReaction` never throws for any string (its guard
uses the coalesced getter, so the `delete` on `_reactions` only runs when a
real object holds the key), and removing an absent reaction leaves the
registry unchanged. -/
theorem c10_reactions_accessor_total (r : Registry) (s : String) :
    (r._reactions = none → r.reactions = []) ∧
    (r.clearReactions).reactions = [] ∧
    (∃ r2, r.removeReaction s = Except.ok r2) ∧
    (r.managesReaction s = false → r.removeReaction s = Except.ok r) := by
  refine ⟨?_, ?_, ?_, ?_⟩
  · intro h
    simp [Registry.reactions, NGN.coalesce, h]
  · simp [Registry.clearReactions, Registry.reactions, NGN.coalesce]
  · by_cases h : r.managesReaction s = true
    · rcases hr : r._reactions with _ | m
      · exfalso
        rw [Registry.managesReaction, Registry.reactions, hr] at h
        simp [NGN.coalesce, jsHasOwnProperty] at h
      · refine ⟨{ r with _reactions := some (jsDelete m s) }, ?_⟩
        simp [Registry.removeReaction, h, hr]
    · have h' : r.managesReaction s = false := by
        cases hb : r.managesReaction s with
        | true => exact absurd hb h
        | false => rfl
      refine ⟨r, ?_⟩
      simp [Registry.removeReaction, h']
  · intro h
    simp [Registry.removeReaction, h]

def c10reg : Registry :=
  { selector := "body", nspace := none, _parent := false,
    _states := [("default", HandlerBehavior.ok)],
    _state := some "default", _reactions := none,
    initialstate := "default", references := [] }

/-- Witness for C10: a registry with no configured reactions — the getter is
the empty object and removing an absent reaction is a harmless no-op. -/
theorem c10_witness :
    c10reg.reactions = [] ∧
    (c10reg.clearReactions).reactions = [] ∧
    (∃ r2, c10reg.removeReaction "missing" = Except.ok r2) ∧
    c10reg.removeReaction "missing" = Except.ok c10reg :=
  ⟨(c10_reactions_accessor_total c10reg "missing").1 rfl,
    (c10_reactions_accessor_total c10reg "missing").2.1,
    (c10_reactions_accessor_total c10reg "missing").2.2.1,
    (c10_reactions_accessor_total c10reg "missing").2.2.2 (by decide)⟩

end ViewRegistry
